import Mathlib

/-!
Verification of the NCBI sequence-retrieval script (`s28042_2025-2.py`).

The script is embedded shallowly: remote calls are abstracted as outcome
parameters (the remote service's behaviour is an input of each function),
Python `int` values are `Int`/`Nat` (Python integers are unbounded), the
`try`/`except` blocks that swallow errors become `Option`-valued results,
and the two output-file generators return descriptions of the file they
write instead of performing I/O.
-/

namespace S28042

/-- A sequence record as produced by `SeqIO.parse` on the fetched GenBank
text.  The script only reads `record.id`, `record.seq` (its length) and
`record.description`. -/
structure SeqRecord where
  id : String
  seq : String
  description : String
deriving DecidableEq

/-- Python `len(record.seq)`. -/
def pyLen (r : SeqRecord) : Nat := r.seq.length

/-! ### Python `int()` parsing of the length-bound inputs (lines 134-145) -/

/-- Digit run after the first digit of a Python integer literal: decimal
digits, where a single underscore may stand between two digits
(`int("1_0")` succeeds, `int("1__0")`, `int("1_")` fail).  Returns the
digit values in order, or `none` on any other character. -/
def pyDigitsAux : List Char → Option (List Nat)
  | [] => some []
  | c :: cs =>
    if c.isDigit then (pyDigitsAux cs).map (fun ds => (c.toNat - '0'.toNat) :: ds)
    else if c = '_' then
      match cs with
      | [] => none
      | c2 :: cs2 =>
        if c2.isDigit then (pyDigitsAux cs2).map (fun ds => (c2.toNat - '0'.toNat) :: ds)
        else none
    else none

/-- A nonempty digit run (first character must be a digit), as the numeric
value it denotes. -/
def pyDigits (cs : List Char) : Option Nat :=
  match cs with
  | [] => none
  | c :: rest =>
    if c.isDigit then
      (pyDigitsAux rest).map
        (fun ds => ((c.toNat - '0'.toNat) :: ds).foldl (fun a d => 10 * a + d) 0)
    else none

/-- Python `int(s)` on an already-stripped string: an optional sign followed
by a nonempty digit run (ASCII decimal digits; the embedding does not model
non-ASCII digit forms).  `none` models the `ValueError` the script catches. -/
def pyInt (s : String) : Option Int :=
  match s.data with
  | [] => none
  | '+' :: cs => (pyDigits cs).map (fun n => (n : Int))
  | '-' :: cs => (pyDigits cs).map (fun n => -(n : Int))
  | cs => (pyDigits cs).map (fun n => (n : Int))

/-- Lines 137-145: `try: min_len = int(min_len_input) except ValueError:
min_len = None` (and the same for `max_len`).  The `ValueError` is swallowed
and the bound becomes `None`; no error is ever reported to the user. -/
def readBound (s : String) : Option Int := pyInt s

/-! ### The record filter (main, lines 158-169) -/

/-- Line 163: `min_len is not None and len(record.seq) < min_len`. -/
def belowMin (minLen : Option Int) (n : Nat) : Bool :=
  match minLen with
  | none => false
  | some m => decide ((n : Int) < m)

/-- Line 166: `max_len is not None and len(record.seq) > max_len`. -/
def aboveMax (maxLen : Option Int) (n : Nat) : Bool :=
  match maxLen with
  | none => false
  | some m => decide (m < (n : Int))

/-- Lines 161-169: the filtering loop.  A record is skipped (`continue`)
when it is below the minimum or above the maximum bound, otherwise it is
appended to `filtered_records`; appending in loop order is the cons-ordered
recursion below. -/
def filterRecords (minLen maxLen : Option Int) : List SeqRecord → List SeqRecord
  | [] => []
  | r :: rs =>
    if belowMin minLen (pyLen r) then filterRecords minLen maxLen rs
    else if aboveMax maxLen (pyLen r) then filterRecords minLen maxLen rs
    else r :: filterRecords minLen maxLen rs

/-- The range invariant as the spec states it: (min absent OR length ≥ min)
AND (max absent OR length ≤ max), both bounds inclusive. -/
def inBounds (minLen maxLen : Option Int) (r : SeqRecord) : Bool :=
  (minLen.all fun m => decide (m ≤ (pyLen r : Int))) &&
    (maxLen.all fun m => decide ((pyLen r : Int) ≤ m))

theorem inBounds_eq (minLen maxLen : Option Int) (r : SeqRecord) :
    inBounds minLen maxLen r =
      (!belowMin minLen (pyLen r) && !aboveMax maxLen (pyLen r)) := by
  cases minLen <;> cases maxLen <;>
    simp only [inBounds, belowMin, aboveMax, Option.all, Bool.not_false, Bool.and_true,
      Bool.true_and, ← decide_not, ← Bool.decide_and, decide_eq_decide] <;>
    omega

theorem filterRecords_eq_filter (minLen maxLen : Option Int) (rs : List SeqRecord) :
    filterRecords minLen maxLen rs = rs.filter (inBounds minLen maxLen) := by
  induction rs with
  | nil => rfl
  | cons r rs ih =>
    by_cases h₁ : belowMin minLen (pyLen r)
    · simp [filterRecords, h₁, List.filter_cons, inBounds_eq, ih]
    · by_cases h₂ : aboveMax maxLen (pyLen r)
      · simp [filterRecords, h₁, h₂, List.filter_cons, inBounds_eq, ih]
      · simp [filterRecords, h₁, h₂, List.filter_cons, inBounds_eq, ih]

/-! ### Sorting for the chart (generate_chart, line 104) -/

/-- The comparison induced by `key=lambda r: len(r.seq)`. -/
def lenLE (a b : SeqRecord) : Bool := decide (pyLen a ≤ pyLen b)

/-- Line 104: `sorted(list(records), key=lambda r: len(r.seq))`.  Python's
`sorted` builds a new list, sorted ascending by the key, and is guaranteed
stable; it is embedded as the (stable) `List.mergeSort`. -/
def pySorted (rs : List SeqRecord) : List SeqRecord := rs.mergeSort lenLE

theorem lenLE_trans : ∀ a b c : SeqRecord, lenLE a b → lenLE b c → lenLE a c := by
  intro a b c
  simp only [lenLE, decide_eq_true_eq]
  omega

theorem lenLE_total : ∀ a b : SeqRecord, lenLE a b || lenLE b a := by
  intro a b
  simp only [lenLE, Bool.or_eq_true, decide_eq_true_eq]
  omega

theorem pySorted_sorted (rs : List SeqRecord) :
    (pySorted rs).Pairwise (fun a b => pyLen a ≤ pyLen b) := by
  have h := @List.sorted_mergeSort SeqRecord lenLE lenLE_trans lenLE_total rs
  exact h.imp (by simp [lenLE])

theorem pySorted_perm (rs : List SeqRecord) : (pySorted rs).Perm rs :=
  List.mergeSort_perm rs lenLE

theorem pySorted_stable (rs : List SeqRecord) (k : Nat) :
    (pySorted rs).filter (fun r => pyLen r == k) = rs.filter (fun r => pyLen r == k) := by
  set p : SeqRecord → Bool := fun r => pyLen r == k with hp
  have hpair : (rs.filter p).Pairwise (fun a b => lenLE a b) := by
    apply List.pairwise_of_forall_mem_list
    intro a ha b hb
    have ha' := (List.mem_filter.mp ha).2
    have hb' := (List.mem_filter.mp hb).2
    simp only [hp, beq_iff_eq] at ha' hb'
    simp [lenLE, ha', hb']
  have hsub : List.Sublist (rs.filter p) (pySorted rs) :=
    List.sublist_mergeSort lenLE_trans lenLE_total hpair (List.filter_sublist rs)
  have hsub2 : List.Sublist (rs.filter p) ((pySorted rs).filter p) := by
    have h := hsub.filter p
    have hpp : (fun a => p a && p a) = p := by
      funext a
      cases p a <;> simp
    rwa [List.filter_filter, hpp] at h
  have hlen : ((pySorted rs).filter p).length = (rs.filter p).length :=
    ((pySorted_perm rs).filter p).length_eq
  exact (hsub2.eq_of_length hlen.symm).symm

/-! ### Output files -/

/-- A description of one of the three files the script writes: the CSV
report (header fields and rendered data rows), the chart (the plotted
(accession id, length) points in plot order), and the raw sample file. -/
inductive OutputFile
  | csv (name : String) (header : List String) (rows : List (List String))
  | chart (name : String) (points : List (String × Nat))
  | sample (name : String) (text : String)
deriving DecidableEq

def csvHeader : OutputFile → List String
  | .csv _ h _ => h
  | _ => []

def csvRows : OutputFile → List (List String)
  | .csv _ _ r => r
  | _ => []

def fileName : OutputFile → String
  | .csv n _ _ => n
  | .chart n _ => n
  | .sample n _ => n

/-! ### generate_csv (lines 83-100) -/

/-- A value appended to one of the column lists of `generate_csv`.
`strVal s` is an ordinary Python string; `listRef` is a reference to the
`descriptions` list object itself — what line 91,
`descriptions.append(descriptions)`, actually appends (Python appends a
reference to the one list object in scope, not a copy and not the record's
description). -/
inductive DescEntry
  | strVal (s : String)
  | listRef
deriving DecidableEq

/-- The three column lists built by the loop of lines 84-91. -/
structure CsvColumns where
  accession_numbers : List String
  seq_lengths : List Nat
  descriptions : List DescEntry
deriving DecidableEq

/-- Lines 84-91: per record, `record.id` is appended to
`accession_numbers`, `len(record.seq)` to `seq_lengths`, and — line 91 —
the `descriptions` list object itself (modelled `DescEntry.listRef`) to
`descriptions`.  The record's own `record.description` string is never
read. -/
def csvColumns (records : List SeqRecord) : CsvColumns :=
  { accession_numbers := records.map (·.id)
    seq_lengths := records.map pyLen
    descriptions := records.map (fun _ => DescEntry.listRef) }

/-- Python's repr of the self-referential `descriptions` list once it holds
`n` elements (each the list itself): recursion is printed as ellipses. -/
def cyclicListRepr (n : Nat) : String :=
  "[" ++ String.intercalate ", " (List.replicate n "[...]") ++ "]"

/-- How a description cell is turned into text by `to_csv` (via `str`):
a string is written as is; the self-referential list prints as
`cyclicListRepr n`, `n` being the length of the descriptions list. -/
def renderDesc (n : Nat) : DescEntry → String
  | .strVal s => s
  | .listRef => cyclicListRepr n

/-- Minimal CSV quoting as applied by pandas `to_csv`: a field containing a
comma, a double quote or a newline is surrounded by double quotes, with
inner double quotes doubled. -/
def csvQuote (s : String) : String :=
  if s.any (fun c => c == ',' || c == '\"' || c == '\n') then
    "\"" ++ String.join (s.data.map (fun c => if c == '\"' then "\"\"" else String.mk [c])) ++ "\""
  else s

/-- The data rows written by `df.to_csv(path)`: row `i` is the row index
`i` (pandas' default RangeIndex, written because `to_csv` is called without
`index=False`) followed by the aligned entries of the three columns. -/
def csvDataRows (n i : Nat) : List String → List Nat → List DescEntry → List (List String)
  | a :: as, l :: ls, d :: ds =>
    [toString i, csvQuote a, toString l, csvQuote (renderDesc n d)] ::
      csvDataRows n (i + 1) as ls ds
  | _, _, _ => []

/-- Lines 83-100: `generate_csv` builds the three columns, forms a
DataFrame with column names `accession number`, `sequence length`,
`description`, and writes it with `df.to_csv(path)` — with pandas'
defaults, so the header line starts with an empty field for the unnamed
index column and every data row starts with the row index. -/
def generate_csv (records : List SeqRecord) (taxid : String) : OutputFile :=
  let cols := csvColumns records
  OutputFile.csv ("taxid_" ++ taxid ++ "_attributes.csv")
    ("" :: ["accession number", "sequence length", "description"])
    (csvDataRows cols.descriptions.length 0
      cols.accession_numbers cols.seq_lengths cols.descriptions)

/-! ### generate_chart (lines 103-120) -/

/-- Lines 103-120: sorts a copy of the input (line 104 rebinds the local
name `records` to the new list returned by `sorted`), plots the accession
ids against the sequence lengths of the sorted records, and saves the
figure.  The second component is the caller's list after the call: the
caller's list object is never mutated. -/
def generate_chart (records : List SeqRecord) (taxid : String) :
    OutputFile × List SeqRecord :=
  (OutputFile.chart ("taxid_" ++ taxid ++ "_chart.png")
    ((pySorted records).map (fun r => (r.id, pyLen r))), records)

/-! ### The NCBIRetriever (lines 10-81) -/

/-- The session attributes stored by a successful search (lines 44-46). -/
structure Session where
  webenv : String
  query_key : String
  count : Nat
deriving DecidableEq

/-- The retriever's mutable state: `session = none` models the absence of
the `webenv`/`query_key` attributes (the script checks `hasattr`), and
`session = some s` their presence. -/
structure RetrieverState where
  session : Option Session
deriving DecidableEq

/-- Outcome of the remote taxonomy-lookup and `esearch` calls of
`search_taxid` (lines 26-35): either some call raised an exception, or
`esearch` returned a result with `Count`, `WebEnv` and `QueryKey`. -/
inductive SearchOutcome
  | err
  | counted (c : Nat) (webenv query_key : String)
deriving DecidableEq

/-- Lines 21-52, `search_taxid`: on a remote error the `except` block
prints and returns `None` (state untouched); on a zero count it returns
`None` at line 39, before the attribute stores of lines 44-46; otherwise it
stores the session attributes and returns the count. -/
def search_taxid (st : RetrieverState) (o : SearchOutcome) :
    Option Nat × RetrieverState :=
  match o with
  | .err => (none, st)
  | .counted c w k =>
    if c = 0 then (none, st)
    else (some c, { session := some ⟨w, k, c⟩ })

/-- Outcome of the remote `efetch` call of `fetch_records` (lines 64-75):
the raw GenBank text, or an exception with message `e`. -/
inductive FetchOutcome
  | ok (text : String)
  | err (e : String)
deriving DecidableEq

/-- What `fetch_records` returns: the Python empty list `[]` (line 58) or
a string — the raw text (line 77), or `""` from the `except` block
(line 81).  The two sentinels are distinct constructors, as they are
distinct Python types. -/
inductive FetchReturn
  | emptyList
  | text (s : String)
deriving DecidableEq

/-- One call of `fetch_records`: its return value, whether the remote
`efetch` call was made, the `retmax` it requested (if made), and the lines
it printed. -/
structure FetchCall where
  ret : FetchReturn
  remoteCalled : Bool
  requested : Option Nat
  printed : List String
deriving DecidableEq

/-- Line 57's message, printed when no session attributes are present. -/
def noSearchMsg : String := "No search results to fetch. Run search_taxid() first."

/-- Line 62: `batch_size = min(max_records, 500)`. -/
def batchSize (maxRecords : Nat) : Nat := min maxRecords 500

/-- Lines 54-81, `fetch_records`: without stored session attributes it
prints line 57's message and returns `[]`, making no remote call;
otherwise it calls `efetch` with `retmax = batch_size` and returns the raw
text, or `""` if the call raised. -/
def fetch_records (st : RetrieverState) (_start maxRecords : Nat)
    (o : FetchOutcome) : FetchCall :=
  match st.session with
  | none =>
    { ret := .emptyList, remoteCalled := false, requested := none
      printed := [noSearchMsg] }
  | some _ =>
    match o with
    | .ok t =>
      { ret := .text t, remoteCalled := true
        requested := some (batchSize maxRecords), printed := [] }
    | .err e =>
      { ret := .text "", remoteCalled := true
        requested := some (batchSize maxRecords)
        printed := ["Error fetching records: " ++ e] }

/-- A sequence of `search_taxid` calls threaded through the retriever's
state. -/
def runSearches (st : RetrieverState) : List SearchOutcome → RetrieverState
  | [] => st
  | o :: os => runSearches (search_taxid st o).2 os

/-! ### The entry point (main, lines 123-184) -/

/-- Terminal states of a run: the early exit of lines 150-152, a crash in
the filtering step, or normal completion. -/
inductive MainState
  | NO_RESULTS
  | CRASHED
  | SAVED
deriving DecidableEq

/-- Lines 123-184, `main`, as a function of the two bound input strings and
the remote outcomes; `parse` stands for `SeqIO.parse` on the fetched text.
Returns the files written, in order, and the terminal state.  After the
`if not count: return` check the fetch cannot return the `[]` sentinel (a
session is stored), but the embedding keeps the branch: `StringIO` applied
to a list would raise a `TypeError` (line 159 carries a `type: ignore`). -/
def runMain (taxid minInput maxInput : String) (so : SearchOutcome)
    (fo : FetchOutcome) (parse : String → List SeqRecord) :
    List OutputFile × MainState :=
  let minLen := readBound minInput
  let maxLen := readBound maxInput
  let res := search_taxid { session := none } so
  match res.1 with
  | none => ([], .NO_RESULTS)
  | some c =>
    if c = 0 then ([], .NO_RESULTS)
    else
      match (fetch_records res.2 0 5 fo).ret with
      | .emptyList => ([], .CRASHED)
      | .text sampleRecords =>
        let filtered := filterRecords minLen maxLen (parse sampleRecords)
        ([generate_csv filtered taxid,
          (generate_chart filtered taxid).1,
          OutputFile.sample ("taxid_" ++ taxid ++ "_sample.gb") sampleRecords],
         .SAVED)

/-! ### Auxiliary lemmas -/

theorem filterRecords_none_none (rs : List SeqRecord) :
    filterRecords none none rs = rs := by
  induction rs with
  | nil => rfl
  | cons r rs ih => simp [filterRecords, belowMin, aboveMax, ih]

theorem csvDataRows_length (n : Nat) (as : List String) (ls : List Nat)
    (ds : List DescEntry) : ∀ i,
    (csvDataRows n i as ls ds).length = min as.length (min ls.length ds.length) := by
  induction as generalizing ls ds with
  | nil => intro i; cases ls <;> cases ds <;> simp [csvDataRows]
  | cons a as ih =>
    intro i
    cases ls with
    | nil => simp [csvDataRows]
    | cons l ls =>
      cases ds with
      | nil => simp [csvDataRows]
      | cons d ds =>
        simp only [csvDataRows, List.length_cons, ih]
        omega

theorem csvDataRows_all4 (n : Nat) (as : List String) (ls : List Nat)
    (ds : List DescEntry) : ∀ i,
    (csvDataRows n i as ls ds).all (fun row => row.length == 4) := by
  induction as generalizing ls ds with
  | nil => intro i; cases ls <;> cases ds <;> simp [csvDataRows]
  | cons a as ih =>
    intro i
    cases ls with
    | nil => simp [csvDataRows]
    | cons l ls =>
      cases ds with
      | nil => simp [csvDataRows]
      | cons d ds => simp [csvDataRows, ih]

/-! ### Claim theorems -/

/-- Claim C2: for every record list and every optional bound pair, the
filtering step retains exactly the records whose length satisfies
(min absent OR length ≥ min) AND (max absent OR length ≤ max), inclusive on
both ends, and preserves the original order of the retained records — it
equals `List.filter` with the inclusive range predicate, and is in
particular a sublist of the input. -/
theorem filter_retains_exactly_in_bounds (minLen maxLen : Option Int)
    (rs : List SeqRecord) :
    filterRecords minLen maxLen rs = rs.filter (inBounds minLen maxLen)
    ∧ List.Sublist (filterRecords minLen maxLen rs) rs := by
  refine ⟨filterRecords_eq_filter minLen maxLen rs, ?_⟩
  rw [filterRecords_eq_filter]
  exact List.filter_sublist rs

/-- Claim C3: the sequence plotted by `generate_chart` is the stable
ascending sort by sequence length of a copy of the input: the plotted
points follow `pySorted`, which is pairwise non-decreasing in length, a
permutation of the input, and stable (records of any fixed length keep
their original relative order); the caller's list after the call is
unchanged. -/
theorem chart_sorted_stable_copy (rs : List SeqRecord) (taxid : String) :
    (generate_chart rs taxid).1 =
      OutputFile.chart ("taxid_" ++ taxid ++ "_chart.png")
        ((pySorted rs).map (fun r => (r.id, pyLen r)))
    ∧ (pySorted rs).Pairwise (fun a b => pyLen a ≤ pyLen b)
    ∧ (pySorted rs).Perm rs
    ∧ (∀ k : Nat, (pySorted rs).filter (fun r => pyLen r == k) =
        rs.filter (fun r => pyLen r == k))
    ∧ (generate_chart rs taxid).2 = rs :=
  ⟨rfl, pySorted_sorted rs, pySorted_perm rs, fun k => pySorted_stable rs k, rfl⟩

/-- Claim C5: the batch size requested from the remote service is
`min(max_records, 500)`: the caller's request when it is at most 500, and
500 otherwise; a fetch performed with a live session requests exactly this
batch size. -/
theorem fetch_batch_capped (m start : Nat) (sess : Session) (o : FetchOutcome) :
    batchSize m = (if m ≤ 500 then m else 500)
    ∧ (fetch_records ⟨some sess⟩ start m o).requested = some (batchSize m) := by
  constructor
  · simp [batchSize, Nat.min_def]
  · cases o <;> rfl

/-- Claim C6 (amended): calling `fetch_records` with no stored session
returns the empty-list sentinel, performs no remote call, and prints
line 57's message `No search results to fetch. Run search_taxid() first.`
(no exception is raised, and the message does not say `no active search`). -/
theorem fetch_without_session_rejected (start m : Nat) (o : FetchOutcome) :
    fetch_records ⟨none⟩ start m o =
      { ret := .emptyList, remoteCalled := false, requested := none
        printed := [noSearchMsg] } := rfl

/-- Claim C6, counterexample to the claimed wording: at a concrete
no-session call the diagnostic actually printed is line 57's message, and
the string `no active search` does not occur in it. -/
theorem fetch_without_session_message_differs :
    (fetch_records ⟨none⟩ 0 5 (FetchOutcome.ok "LOCUS")).printed = [noSearchMsg]
    ∧ (fetch_records ⟨none⟩ 0 5 (FetchOutcome.ok "LOCUS")).ret = FetchReturn.emptyList
    ∧ ¬ List.IsInfix ("no active search".data) (noSearchMsg.data) := by
  refine ⟨rfl, rfl, by decide⟩

/-- Claim C7: when the search reports a remote error or a match count of
zero, `main` stops at `NO_RESULTS` and writes none of the three output
files. -/
theorem no_results_writes_nothing (taxid mi ma : String) (fo : FetchOutcome)
    (parse : String → List SeqRecord) (w k : String) :
    runMain taxid mi ma SearchOutcome.err fo parse = ([], MainState.NO_RESULTS)
    ∧ runMain taxid mi ma (SearchOutcome.counted 0 w k) fo parse =
        ([], MainState.NO_RESULTS) := by
  exact ⟨rfl, rfl⟩

/-- A concrete parsed record used to exhibit concrete behaviour. -/
def rBug : SeqRecord :=
  { id := "AB000001.1", seq := "ACGT", description := "Homo sapiens test record" }

/-- Claim C1: evaluation at a concrete record exhibiting the defect of
line 91 — every entry of the description column is the shared reference to
the `descriptions` list object itself, and no such entry equals any
record's own description string. -/
theorem csv_description_is_shared_list_ref :
    (csvColumns [rBug]).descriptions = [DescEntry.listRef]
    ∧ DescEntry.listRef ≠ DescEntry.strVal rBug.description
    ∧ (∀ s : String, DescEntry.listRef ≠ DescEntry.strVal s) :=
  ⟨rfl, fun h => DescEntry.noConfusion h, fun _ h => DescEntry.noConfusion h⟩

/-- Claim C4 (amended): the CSV file written by `generate_csv` has the
three data columns `accession number`, `sequence length`, `description`
in that order, preceded by the unnamed index column that pandas `to_csv`
writes by default, and exactly one data row (of four fields) per filtered
record. -/
theorem csv_shape (rs : List SeqRecord) (taxid : String) :
    fileName (generate_csv rs taxid) = "taxid_" ++ taxid ++ "_attributes.csv"
    ∧ csvHeader (generate_csv rs taxid) =
        ["", "accession number", "sequence length", "description"]
    ∧ (csvRows (generate_csv rs taxid)).length = rs.length
    ∧ (csvRows (generate_csv rs taxid)).all (fun row => row.length == 4) := by
  refine ⟨rfl, rfl, ?_, ?_⟩
  · simp [generate_csv, csvRows, csvColumns, csvDataRows_length]
  · exact csvDataRows_all4 _ _ _ _ 0

/-- Claim C4, counterexample to the claim as stated: on a concrete record
set the header of the written file is not the three claimed columns — it
carries a fourth, unnamed leading field for the row index. -/
theorem csv_header_has_index_column :
    csvHeader (generate_csv [rBug] "9606") =
      ["", "accession number", "sequence length", "description"]
    ∧ csvHeader (generate_csv [rBug] "9606") ≠
        ["accession number", "sequence length", "description"] := by
  exact ⟨rfl, by decide⟩

theorem pyDigitsAux_none : ∀ (cs : List Char),
    (∃ c ∈ cs, (c.isDigit || c == '_') = false) → pyDigitsAux cs = none
  | [] => by simp
  | c :: cs => fun h => by
    by_cases hd : c.isDigit
    · have hcs : ∃ c' ∈ cs, (c'.isDigit || c' == '_') = false := by
        rcases h with ⟨x, hx, hbad⟩
        rcases List.mem_cons.mp hx with hx | hx
        · subst hx; simp [hd] at hbad
        · exact ⟨x, hx, hbad⟩
      rw [pyDigitsAux.eq_def]
      simp [hd, pyDigitsAux_none cs hcs]
    · by_cases hu : c = '_'
      · cases cs with
        | nil =>
          rw [pyDigitsAux.eq_def]
          simp [hd, hu]
        | cons c2 cs2 =>
          by_cases hd2 : c2.isDigit
          · have hcs2 : ∃ c' ∈ cs2, (c'.isDigit || c' == '_') = false := by
              rcases h with ⟨x, hx, hbad⟩
              rcases List.mem_cons.mp hx with hx | hx
              · subst hx; simp [hu] at hbad
              · rcases List.mem_cons.mp hx with hx | hx
                · subst hx; simp [hd2] at hbad
                · exact ⟨x, hx, hbad⟩
            rw [pyDigitsAux.eq_def]
            simp [hd, hu, hd2, pyDigitsAux_none cs2 hcs2]
          · rw [pyDigitsAux.eq_def]
            simp [hd, hu, hd2]
      · rw [pyDigitsAux.eq_def]
        simp [hd, hu]

theorem pyDigits_none (cs : List Char)
    (h : ∃ c ∈ cs, (c.isDigit || c == '_') = false) : pyDigits cs = none := by
  cases cs with
  | nil => rfl
  | cons c rest =>
    by_cases hd : c.isDigit
    · have hrest : ∃ c' ∈ rest, (c'.isDigit || c' == '_') = false := by
        rcases h with ⟨x, hx, hbad⟩
        rcases List.mem_cons.mp hx with hx | hx
        · subst hx; simp [hd] at hbad
        · exact ⟨x, hx, hbad⟩
      simp [pyDigits, hd, pyDigitsAux_none rest hrest]
    · simp [pyDigits, hd]

theorem pyInt_none_of_bad_char (s : String)
    (h : ∃ c ∈ s.data, (c.isDigit || c == '+' || c == '-' || c == '_') = false) :
    pyInt s = none := by
  have weaken : ∀ {x : Char},
      (x.isDigit || x == '+' || x == '-' || x == '_') = false →
      (x.isDigit || x == '_') = false := by
    intro x hx
    simp only [Bool.or_eq_false_iff] at hx ⊢
    exact ⟨hx.1.1.1, hx.2⟩
  rcases hcs : s.data with _ | ⟨c, cs⟩
  · simp [hcs] at h
  · rw [hcs] at h
    by_cases hplus : c = '+'
    · have hcs' : ∃ c' ∈ cs, (c'.isDigit || c' == '_') = false := by
        rcases h with ⟨x, hx, hbad⟩
        rcases List.mem_cons.mp hx with hx | hx
        · subst hx; simp [hplus] at hbad
        · exact ⟨x, hx, weaken hbad⟩
      simp [pyInt, hcs, hplus, pyDigits_none cs hcs']
    · by_cases hminus : c = '-'
      · have hcs' : ∃ c' ∈ cs, (c'.isDigit || c' == '_') = false := by
          rcases h with ⟨x, hx, hbad⟩
          rcases List.mem_cons.mp hx with hx | hx
          · subst hx; simp [hminus] at hbad
          · exact ⟨x, hx, weaken hbad⟩
        simp [pyInt, hcs, hplus, hminus, pyDigits_none cs hcs']
      · have hall : ∃ c' ∈ c :: cs, (c'.isDigit || c' == '_') = false := by
          rcases h with ⟨x, hx, hbad⟩
          exact ⟨x, hx, weaken hbad⟩
        simp [pyInt, hcs, hplus, hminus, pyDigits_none (c :: cs) hall]

/-- Claim C8: blank input and non-numeric bound input both yield `None`
(no bound on that side) — the `ValueError` is swallowed, never reported —
and with both bounds absent the filtered set equals the full parsed set. -/
theorem lenient_bound_inputs (s mi ma : String) (rs : List SeqRecord) :
    readBound "" = none
    ∧ ((∃ c ∈ s.data,
          (c.isDigit || c == '+' || c == '-' || c == '_') = false) →
        readBound s = none)
    ∧ (readBound mi = none → readBound ma = none →
        filterRecords (readBound mi) (readBound ma) rs = rs) := by
  refine ⟨rfl, fun h => pyInt_none_of_bad_char s h, fun hmi hma => ?_⟩
  rw [hmi, hma]
  exact filterRecords_none_none rs

/-- Claim C8, witness: the blank minimum and the non-numeric maximum
`abc` are both treated as unbounded, and the concrete record list passes
the filter unchanged. -/
theorem lenient_bound_inputs_witness :
    readBound "" = none ∧ readBound "abc" = none ∧
      filterRecords (readBound "") (readBound "abc") [rBug] = [rBug] := by
  have h := lenient_bound_inputs "abc" "" "abc" [rBug]
  have hab : readBound "abc" = none := h.2.1 (by decide)
  exact ⟨h.1, hab, h.2.2 h.1 hab⟩

theorem runSearches_session (os : List SearchOutcome) : ∀ st : RetrieverState,
    ((runSearches st os).session.isSome ↔
      st.session.isSome = true ∨ ∃ c w k, SearchOutcome.counted c w k ∈ os ∧ 0 < c) := by
  induction os with
  | nil => intro st; simp [runSearches]
  | cons o os ih =>
    intro st
    cases o with
    | err =>
      rw [runSearches, search_taxid, ih]
      simp
    | counted c w k =>
      by_cases hc : c = 0
      · subst hc
        rw [runSearches, search_taxid]
        simp only [if_pos rfl, ih]
        constructor
        · rintro (h | h)
          · exact Or.inl h
          · exact Or.inr (by
              rcases h with ⟨c', w', k', hm, hpos⟩
              exact ⟨c', w', k', List.mem_cons_of_mem _ hm, hpos⟩)
        · rintro (h | ⟨c', w', k', hm, hpos⟩)
          · exact Or.inl h
          · rcases List.mem_cons.mp hm with hm | hm
            · cases hm; omega
            · exact Or.inr ⟨c', w', k', hm, hpos⟩
      · rw [runSearches, search_taxid]
        simp only [if_neg hc, ih]
        constructor
        · intro _
          exact Or.inr ⟨c, w, k, List.mem_cons_self _ _, Nat.pos_of_ne_zero hc⟩
        · intro _
          simp

/-- Claim C9: starting from a fresh client, session state is held after a
sequence of searches iff some search returned a positive match count;
a search that returns the `None` sentinel (zero count or error) leaves the
state exactly as it was, having stored nothing; and while no session is
held, a fetch is rejected by the precondition check — empty-list sentinel,
no remote call. -/
theorem session_iff_successful_search (os : List SearchOutcome)
    (start m : Nat) (fo : FetchOutcome) :
    ((runSearches ⟨none⟩ os).session.isSome ↔
        ∃ c w k, SearchOutcome.counted c w k ∈ os ∧ 0 < c)
    ∧ (∀ (st : RetrieverState) (so : SearchOutcome),
        (search_taxid st so).1 = none → (search_taxid st so).2 = st)
    ∧ ((runSearches ⟨none⟩ os).session = none →
        fetch_records (runSearches ⟨none⟩ os) start m fo =
          { ret := .emptyList, remoteCalled := false, requested := none
            printed := [noSearchMsg] }) := by
  refine ⟨?_, ?_, ?_⟩
  · rw [runSearches_session]
    simp
  · intro st so h
    cases so with
    | err => rfl
    | counted c w k =>
      by_cases hc : c = 0
      · simp [search_taxid, hc]
      · simp [search_taxid, hc] at h
  · intro h
    have hst : runSearches ⟨none⟩ os = ⟨none⟩ := by
      cases hrun : runSearches ⟨none⟩ os with
      | mk s => rw [hrun] at h; simp at h; rw [h]
    rw [hst]
    rfl

/-- Claim C9, witness: after a single failed search from a fresh client,
fetching is rejected with the empty-list sentinel and no remote call. -/
theorem session_iff_successful_search_witness :
    fetch_records (runSearches ⟨none⟩ [SearchOutcome.err]) 0 5
        (FetchOutcome.err "boom") =
      { ret := .emptyList, remoteCalled := false, requested := none
        printed := [noSearchMsg] } :=
  (session_iff_successful_search [SearchOutcome.err] 0 5
    (FetchOutcome.err "boom")).2.2 rfl

/-- Claim C10: after a successful search, a failing remote fetch returns
the empty string (not an abort), and the run still completes: all three
files are written — a CSV with its header and zero data rows, a chart over
zero points, and an empty raw sample file — ending in `SAVED`; the
empty-string failure sentinel is distinct from the empty-list
missing-session sentinel. -/
theorem fetch_error_still_completes (taxid mi ma : String) (c : Nat)
    (w k e : String) (parse : String → List SeqRecord)
    (hc : c ≠ 0) (hp : parse "" = []) :
    runMain taxid mi ma (SearchOutcome.counted c w k) (FetchOutcome.err e) parse =
      ([OutputFile.csv ("taxid_" ++ taxid ++ "_attributes.csv")
          ["", "accession number", "sequence length", "description"] [],
        OutputFile.chart ("taxid_" ++ taxid ++ "_chart.png") [],
        OutputFile.sample ("taxid_" ++ taxid ++ "_sample.gb") ""],
       MainState.SAVED)
    ∧ (fetch_records ⟨some ⟨w, k, c⟩⟩ 0 5 (FetchOutcome.err e)).ret =
        FetchReturn.text ""
    ∧ FetchReturn.text "" ≠ FetchReturn.emptyList := by
  refine ⟨?_, rfl, fun h => FetchReturn.noConfusion h⟩
  rw [runMain]
  simp only [search_taxid, if_neg hc, fetch_records, hp]
  simp [filterRecords, generate_csv, csvColumns, csvDataRows, generate_chart,
    pySorted, List.mergeSort_nil]

/-- Claim C10, witness: a concrete run — taxid 9606, count 3, blank bound
inputs, a fetch error, and the GenBank parser yielding no records on empty
text — writes the three empty outputs and completes. -/
theorem fetch_error_still_completes_witness :
    runMain "9606" "" "" (SearchOutcome.counted 3 "WE" "QK")
        (FetchOutcome.err "boom") (fun _ => []) =
      ([OutputFile.csv "taxid_9606_attributes.csv"
          ["", "accession number", "sequence length", "description"] [],
        OutputFile.chart "taxid_9606_chart.png" [],
        OutputFile.sample "taxid_9606_sample.gb" ""],
       MainState.SAVED)
    ∧ (fetch_records ⟨some ⟨"WE", "QK", 3⟩⟩ 0 5 (FetchOutcome.err "boom")).ret =
        FetchReturn.text ""
    ∧ FetchReturn.text "" ≠ FetchReturn.emptyList :=
  fetch_error_still_completes "9606" "" "" 3 "WE" "QK" "boom" (fun _ => [])
    (by decide) rfl

end S28042
